import Mathlib

/-!
Shallow embedding of the combination-store server of the `comb` repository.

The repository contains three iterations of the same Express server:
* `src/server.js` — file-backed store, no sessions;
* `src/unnamed/part_002` — session-aware variant (storage keys optionally
  namespaced by a session id);
* `src/3.js` — in-memory store with an AI generator, a manual-add endpoint
  and a fan-out broadcaster with per-client error handling.

JavaScript objects used as maps are embedded as association lists with
JS-object assignment semantics (replace in place when the key is present,
append otherwise).  JS string comparison (used by `Array.prototype.sort`)
is embedded as lexicographic comparison of the character sequences; this
agrees with the UTF-16 code-unit order of JS on the basic multilingual
plane.  Timestamps are taken as an abstract `Nat` parameter `now`.
-/

namespace Comb

/-! ### JS object model: association lists with unique keys -/

/-- `obj[k]` — first binding of `k`, scanning in insertion order. -/
def objGet {α : Type} : List (String × α) → String → Option α
  | [], _ => none
  | (k', v) :: rest, k => if k' = k then some v else objGet rest k

/-- `obj[k] = v` — replace in place when present, append otherwise. -/
def objSet {α : Type} (S : List (String × α)) (k : String) (v : α) :
    List (String × α) :=
  if S.any (fun kv => kv.1 = k) then
    S.map (fun kv => if kv.1 = k then (k, v) else kv)
  else
    S ++ [(k, v)]

/-! ### JS string ordering (lexicographic on code units) -/

/-- Lexicographic comparison of character lists, as JS compares strings. -/
def charListLt : List Char → List Char → Bool
  | _, [] => false
  | [], _ :: _ => true
  | a :: as, b :: bs =>
    if a < b then true else if b < a then false else charListLt as bs

/-- The `<` relation the default JS `sort()` comparator induces on strings. -/
def jsLt (a b : String) : Bool := charListLt a.data b.data

/-- JS truthiness of an optional string field: absent, `undefined` and the
empty string are falsy; every other string is truthy. -/
def truthy : Option String → Bool
  | none => false
  | some s => s ≠ ""

/-- JS `x || d` for an optional string `x` (empty string is falsy). -/
def jsOrString (x : Option String) (d : String) : String :=
  match x with
  | none => d
  | some s => if s = "" then d else s

/-! ### Key codec (shared verbatim by all three server iterations)

```js
function getCombinationKey(first, second) {
    const sorted = [first, second].sort();
    return sorted[0] + '+' + sorted[1];
}
```
`[a, b].sort()` keeps the order when `a <= b` and swaps otherwise. -/

def getCombinationKey (first second : String) : String :=
  if jsLt second first then second ++ "+" ++ first
  else first ++ "+" ++ second

/-! ### Data model of `src/server.js` and `src/unnamed/part_002` -/

/-- A stored combination record.  `server.js` writes no `sessionId` field
(embedded as `none`); `part_002` always writes one. -/
structure Combination where
  result : String
  emoji : String
  sessionId : Option String
  wasFirstDiscovery : Bool
  discoveredAt : Nat
  deriving Repr, DecidableEq

/-- The JSON store object: pair key (possibly session-prefixed) to record. -/
abbrev Store := List (String × Combination)

/-- JS `toLowerCase()`, embedded as a character-wise map so that it
computes by structural recursion. -/
def jsToLower (s : String) : String :=
  ⟨s.data.map Char.toLower⟩

/-- `src/server.js` lines 58–70 / `part_002` lines 76–85:
linear scan over every stored record, case-insensitive match on `result`;
returns `false` as soon as a match is found, `true` otherwise.
(The `part_002` copy takes a third `sessionId` parameter it never reads.) -/
def isFirstDiscovery (result : String) (existing : Store) : Bool :=
  !(existing.any (fun kv => jsToLower kv.2.result == jsToLower result))

/-- Request body of `POST /api/combination` (fields may be absent). -/
structure AddRequest where
  first : Option String
  second : Option String
  result : Option String
  emoji : Option String
  isNew : Option Bool
  deriving Repr, DecidableEq

/-- HTTP response of the add/lookup routes, stripped to its JSON payload. -/
inductive ApiResponse where
  | ok (result emoji : String) (isNew : Bool) (sessionId : Option String)
  | badRequest (error : String)
  | serverError (error : String)
  deriving Repr, DecidableEq

/-- SSE events the two file-backed iterations emit while adding. -/
inductive Event where
  | combinationAdded (totalCombinations : Nat)
  | firstDiscovery (combination result emoji : String)
      (sessionId : Option String)
  deriving Repr, DecidableEq

/-- Everything observable about one `POST /api/combination` call. -/
structure AddOutcome where
  store : Store
  response : ApiResponse
  savedToDisk : Bool
  events : List Event
  deriving Repr, DecidableEq

/-! ### `src/server.js` — `POST /api/combination` (lines 128–194)

`saveCombinations` (lines 29–49) writes the file, then broadcasts
`combination_added`; on a write error it logs and rethrows, and the route
catch responds 500 — so on a failed save the durable store is unchanged,
no event goes out and the caller sees an error.  `saveOk` embeds whether
the `fs.writeFile` call succeeds. -/

def addCombinationServer (saveOk : Bool) (now : Nat) (req : AddRequest)
    (S : Store) : AddOutcome :=
  if truthy req.first && truthy req.second &&
      truthy req.result && truthy req.emoji then
    let first := jsOrString req.first ""
    let second := jsOrString req.second ""
    let result := jsOrString req.result ""
    let emoji := jsOrString req.emoji ""
    let key := getCombinationKey first second
    match objGet S key with
    | some existing =>
        { store := S
          response := .ok existing.result existing.emoji false none
          savedToDisk := false
          events := [] }
    | none =>
        let isFirstTime := isFirstDiscovery result S
        let newCombination : Combination :=
          { result := result, emoji := emoji, sessionId := none
            wasFirstDiscovery := isFirstTime, discoveredAt := now }
        let S' := objSet S key newCombination
        if saveOk then
          { store := S'
            response := .ok result emoji isFirstTime none
            savedToDisk := true
            events :=
              [Event.combinationAdded S'.length] ++
                (if isFirstTime then
                  [Event.firstDiscovery key result emoji none]
                else []) }
        else
          { store := S
            response := .serverError "Internal server error"
            savedToDisk := false
            events := [] }
  else
    { store := S
      response := .badRequest "Missing required fields"
      savedToDisk := false
      events := [] }

/-! ### `src/unnamed/part_002` — session-aware variant

The add route resolves the session as
`req.body.sessionId || req.query.sessionId || headers || 'default'`;
a single optional input stands for that chain. -/

/-- Session resolution of the `part_002` routes (empty string is falsy). -/
def resolveSessionId (sid : Option String) : String :=
  jsOrString sid "default"

/-- `part_002`: `sessionId === 'default' ? key : sessionId + ':' + key`. -/
def storageKey (sessionId key : String) : String :=
  if sessionId = "default" then key else sessionId ++ ":" ++ key

/-- `part_002` lines 88–103: session-qualified lookup with a fallback to
the plain key, accepted only when the stored record carries the very same
`sessionId`. -/
def combinationExistsInSession (first second sessionId : String)
    (S : Store) : Option Combination :=
  let key := getCombinationKey first second
  let sessionKey := storageKey sessionId key
  match objGet S sessionKey with
  | some c => some c
  | none =>
      match objGet S key with
      | some c =>
          if c.sessionId = some sessionId then some c else none
      | none => none

/-- `part_002` lines 166–242: `POST /api/combination`.  Destructures
`isNew` from the body but never reads it.  On an existing record the
response echoes `existingCombination.sessionId || sessionId`.  Save
failure behaves as in `server.js` (rethrow, route catch, 500). -/
def addCombinationP2 (saveOk : Bool) (now : Nat) (req : AddRequest)
    (sidOpt : Option String) (S : Store) : AddOutcome :=
  let sessionId := resolveSessionId sidOpt
  if truthy req.first && truthy req.second &&
      truthy req.result && truthy req.emoji then
    let first := jsOrString req.first ""
    let second := jsOrString req.second ""
    let result := jsOrString req.result ""
    let emoji := jsOrString req.emoji ""
    match combinationExistsInSession first second sessionId S with
    | some existing =>
        { store := S
          response := .ok existing.result existing.emoji false
            (some (jsOrString existing.sessionId sessionId))
          savedToDisk := false
          events := [] }
    | none =>
        let isFirstTime := isFirstDiscovery result S
        let newCombination : Combination :=
          { result := result, emoji := emoji, sessionId := some sessionId
            wasFirstDiscovery := isFirstTime, discoveredAt := now }
        let key := getCombinationKey first second
        let sKey := storageKey sessionId key
        let S' := objSet S sKey newCombination
        if saveOk then
          { store := S'
            response := .ok result emoji isFirstTime (some sessionId)
            savedToDisk := true
            events :=
              [Event.combinationAdded S'.length] ++
                (if isFirstTime then
                  [Event.firstDiscovery key result emoji (some sessionId)]
                else []) }
        else
          { store := S
            response := .serverError "Internal server error"
            savedToDisk := false
            events := [] }
  else
    { store := S
      response := .badRequest "Missing required fields"
      savedToDisk := false
      events := [] }

/-- `part_002` line 282: the first-discoveries route reads the session
from query or header with no default; `!sessionId` treats the empty
string like an absent one. -/
def normalizeSessionId (sid : Option String) : Option String :=
  match sid with
  | none => none
  | some s => if s = "" then none else some s

/-- JS `key.split(':')` on the character list, with the accumulator
holding the current segment reversed. -/
def jsSplitColon : List Char → List Char → List (List Char)
  | [], cur => [cur.reverse]
  | c :: rest, cur =>
      if c = ':' then cur.reverse :: jsSplitColon rest []
      else jsSplitColon rest (c :: cur)

/-- `part_002` line 291: `key.includes(':') ? key.split(':')[1] : key`. -/
def displayKey (k : String) : String :=
  if k.data.contains ':' then ⟨(jsSplitColon k.data []).getD 1 []⟩ else k

/-- Session filter of the first-discoveries route:
`!sessionId || combo.sessionId === sessionId`. -/
def sessionMatch (sid : Option String) (c : Combination) : Bool :=
  match sid with
  | none => true
  | some s => c.sessionId == some s

/-- Selection test of one loop iteration of the first-discoveries route. -/
def fdPred (sid : Option String) (kv : String × Combination) : Bool :=
  kv.2.wasFirstDiscovery && sessionMatch sid kv.2

/-- Projection the first-discoveries route stores under the display key:
`{ result, emoji, sessionId: combo.sessionId || 'default', discoveredAt,
wasFirstDiscovery: true }`. -/
def firstDiscoveryView (c : Combination) : Combination :=
  { result := c.result, emoji := c.emoji
    sessionId := some (jsOrString c.sessionId "default")
    wasFirstDiscovery := true, discoveredAt := c.discoveredAt }

/-- The `for ... of Object.entries` loop of `GET /api/first-discoveries`,
accumulating into a fresh object. -/
def firstDiscoveriesLoop (sid : Option String) :
    Store → Store → Store
  | [], acc => acc
  | kv :: rest, acc =>
      if fdPred sid kv then
        firstDiscoveriesLoop sid rest
          (objSet acc (displayKey kv.1) (firstDiscoveryView kv.2))
      else
        firstDiscoveriesLoop sid rest acc

/-- `part_002` lines 280–312: `GET /api/first-discoveries`. -/
def listFirstDiscoveriesP2 (S : Store) (sid : Option String) : Store :=
  firstDiscoveriesLoop (normalizeSessionId sid) S []

/-- `part_002` lines 244–253: `GET /api/combinations` loads the store and
returns it whole; no session parameter is read. -/
def listAllP2 (S : Store) (_sid : Option String) : Store := S

/-! ### `src/3.js` — in-memory variant -/

/-- Record shape of the `3.js` store. -/
structure Combo3 where
  result : String
  emoji : String
  isNew : Bool
  timestamp : Nat
  generated : Bool
  firstDiscovery : Bool
  deriving Repr, DecidableEq

/-- JS `x || false` for an optional boolean body field. -/
def jsOrBool (x : Option Bool) (d : Bool) : Bool :=
  match x with
  | none => d
  | some b => b || d

/-- Response of `POST /api/combinations` in `3.js`. -/
inductive Api3Response where
  | ok (key : String) (combination : Combo3)
  | badRequest (error : String)
  deriving Repr, DecidableEq

/-- Observable outcome of the `3.js` manual add: the in-memory store after
the call, the response, and the broadcast event types in order. -/
structure Manual3Outcome where
  store : List (String × Combo3)
  response : Api3Response
  events : List String
  deriving Repr, DecidableEq

/-- `3.js` lines 280–314: `POST /api/combinations` writes
`combinations[key] = {...}` unconditionally (an existing record at the key
is replaced), then `saveCombinations()` — which, when the file write
succeeds, broadcasts `combinations_updated` and, when it fails, only logs
— then always broadcasts `combination_added` and responds success. -/
def addCombinationManual (saveOk : Bool) (now : Nat)
    (first second result emoji : Option String) (isNew : Option Bool)
    (S : List (String × Combo3)) : Manual3Outcome :=
  if truthy first && truthy second && truthy result && truthy emoji then
    let key := getCombinationKey (jsOrString first "") (jsOrString second "")
    let combo : Combo3 :=
      { result := jsOrString result "", emoji := jsOrString emoji ""
        isNew := jsOrBool isNew false, timestamp := now
        generated := false, firstDiscovery := false }
    let S' := objSet S key combo
    { store := S'
      response := .ok key combo
      events :=
        (if saveOk then ["combinations_updated"] else []) ++
          ["combination_added"] }
  else
    { store := S
      response := .badRequest "Missing required fields"
      events := [] }

/-! ### Broadcast fan-out -/

/-- A subscribed SSE client; `failing` embeds whether its `write` throws. -/
structure Client where
  id : Nat
  failing : Bool
  deriving Repr, DecidableEq

/-- `3.js` lines 156–165: `broadcastUpdate` iterates the client list and
wraps each `client.write` in its own try/catch whose handler only logs.
The result pairs the ids written to, in order, with the registry after the
call — `sseClients` is never modified here. -/
def broadcastUpdate3 (clients : List Client) : List Nat × List Client :=
  (go clients [], clients)
where
  go : List Client → List Nat → List Nat
    | [], acc => acc
    | c :: rest, acc =>
        if c.failing then go rest acc else go rest (acc ++ [c.id])

/-- `src/server.js` lines 41–43: the fan-out inside `saveCombinations` is
`sseClients.forEach(client => client.write(...))` with no per-client
handler; the first throwing client aborts the loop and the exception
escapes to the caller of `saveCombinations`. -/
def broadcastServerWrites : List Client → List Nat →
    Except String (List Nat)
  | [], acc => .ok acc
  | c :: rest, acc =>
      if c.failing then .error "client write failed"
      else broadcastServerWrites rest (acc ++ [c.id])

/-! ## Helper lemmas about the embedded JS primitives -/

theorem objGet_cons {α : Type} (kv : String × α) (rest : List (String × α))
    (k : String) :
    objGet (kv :: rest) k =
      if kv.1 = k then some kv.2 else objGet rest k := by
  rcases kv with ⟨k', v⟩
  rfl

theorem objGet_map_replace {α : Type} (S : List (String × α)) (k : String)
    (v : α) (h : S.any (fun kv => kv.1 = k) = true) :
    objGet (S.map (fun kv => if kv.1 = k then (k, v) else kv)) k = some v := by
  induction S with
  | nil => simp at h
  | cons kv rest ih =>
      by_cases hk : kv.1 = k
      · rw [List.map_cons, if_pos hk, objGet_cons, if_pos rfl]
      · have h' : rest.any (fun kv => kv.1 = k) = true := by
          rcases List.any_eq_true.mp h with ⟨a, ha, hpa⟩
          rcases List.mem_cons.mp ha with rfl | ha'
          · exact absurd (by simpa using hpa) hk
          · exact List.any_eq_true.mpr ⟨a, ha', hpa⟩
        rw [List.map_cons, if_neg hk, objGet_cons, if_neg hk]
        exact ih h'

theorem objGet_append_single {α : Type} (S : List (String × α)) (k : String)
    (v : α) : objGet S k = none → objGet (S ++ [(k, v)]) k = some v := by
  induction S with
  | nil => intro _; simp [objGet]
  | cons kv rest ih =>
      intro h
      rw [objGet_cons] at h
      by_cases hk : kv.1 = k
      · rw [if_pos hk] at h; cases h
      · rw [if_neg hk] at h
        rw [List.cons_append, objGet_cons, if_neg hk]
        exact ih h

theorem objGet_eq_none_of_not_any {α : Type} (S : List (String × α))
    (k : String) (h : S.any (fun kv => kv.1 = k) = false) :
    objGet S k = none := by
  induction S with
  | nil => simp [objGet]
  | cons kv rest ih =>
      rw [List.any_cons, Bool.or_eq_false_iff] at h
      have hk : ¬ kv.1 = k := by simpa using h.1
      rw [objGet_cons, if_neg hk]
      exact ih h.2

theorem objGet_objSet_self {α : Type} (S : List (String × α)) (k : String)
    (v : α) : objGet (objSet S k v) k = some v := by
  unfold objSet
  by_cases h : S.any (fun kv => kv.1 = k) = true
  · rw [if_pos h]; exact objGet_map_replace S k v h
  · rw [if_neg h]
    exact objGet_append_single S k v
      (objGet_eq_none_of_not_any S k (by
        cases hb : S.any (fun kv => kv.1 = k) with
        | false => rfl
        | true => exact absurd hb h))

theorem objGet_objSet_ne {α : Type} (S : List (String × α)) (k k' : String)
    (v : α) (hne : k' ≠ k) : objGet (objSet S k v) k' = objGet S k' := by
  have hkk' : ¬ k = k' := fun hkk => hne hkk.symm
  unfold objSet
  by_cases h : S.any (fun kv => kv.1 = k) = true
  · rw [if_pos h]; clear h
    induction S with
    | nil => simp
    | cons kv rest ih =>
        by_cases hk : kv.1 = k
        · have hnk' : ¬ kv.1 = k' := by rw [hk]; exact hkk'
          rw [List.map_cons, if_pos hk, objGet_cons, objGet_cons,
            if_neg hkk', if_neg hnk']
          exact ih
        · rw [List.map_cons, if_neg hk, objGet_cons, objGet_cons]
          by_cases hk' : kv.1 = k'
          · rw [if_pos hk', if_pos hk']
          · rw [if_neg hk', if_neg hk']
            exact ih
  · rw [if_neg h]; clear h
    induction S with
    | nil => simp [objGet, hkk']
    | cons kv rest ih =>
        rw [List.cons_append, objGet_cons, objGet_cons]
        by_cases hk' : kv.1 = k'
        · rw [if_pos hk', if_pos hk']
        · rw [if_neg hk', if_neg hk']
          exact ih

theorem mem_objSet_self {α : Type} (S : List (String × α)) (k : String)
    (v : α) : (k, v) ∈ objSet S k v := by
  unfold objSet
  by_cases h : S.any (fun kv => kv.1 = k) = true
  · rw [if_pos h]
    rcases List.any_eq_true.mp h with ⟨kv, hkv, hk⟩
    have hk' : kv.1 = k := by simpa using hk
    have hmem : (if kv.1 = k then (k, v) else kv) ∈
        List.map (fun kv => if kv.1 = k then (k, v) else kv) S :=
      List.mem_map_of_mem (fun kv => if kv.1 = k then (k, v) else kv) hkv
    rwa [if_pos hk'] at hmem
  · rw [if_neg h]
    exact List.mem_append_right _ (by simp)

theorem objSet_of_key_fresh {α : Type} (S : List (String × α)) (k : String)
    (v : α) (h : ∀ a ∈ S, a.1 ≠ k) : objSet S k v = S ++ [(k, v)] := by
  unfold objSet
  rw [if_neg]
  intro hany
  rcases List.any_eq_true.mp hany with ⟨kv, hkv, hk⟩
  exact h kv hkv (by simpa using hk)

/-! Properties of the embedded JS string comparison. -/

theorem charListLt_asymm : ∀ {x y : List Char},
    charListLt x y = true → charListLt y x = false := by
  intro x
  induction x with
  | nil =>
      intro y h
      cases y with
      | nil => simp [charListLt] at h
      | cons b bs => simp [charListLt]
  | cons a as ih =>
      intro y h
      cases y with
      | nil => simp [charListLt] at h
      | cons b bs =>
          by_cases hab : a < b
          · have hba : ¬ b < a := lt_asymm hab
            simp [charListLt, hab, hba]
          · by_cases hba : b < a
            · simp [charListLt, hab, hba] at h
            · simp only [charListLt, hab, hba, if_false] at h ⊢
              exact ih h

theorem charListLt_eq_of_not_lt : ∀ {x y : List Char},
    charListLt x y = false → charListLt y x = false → x = y := by
  intro x
  induction x with
  | nil =>
      intro y h1 _
      cases y with
      | nil => rfl
      | cons b bs => simp [charListLt] at h1
  | cons a as ih =>
      intro y h1 h2
      cases y with
      | nil => simp [charListLt] at h2
      | cons b bs =>
          by_cases hab : a < b
          · simp [charListLt, hab] at h1
          · by_cases hba : b < a
            · simp [charListLt, hba] at h2
            · have hchar : a = b :=
                le_antisymm (le_of_not_lt hba) (le_of_not_lt hab)
              simp only [charListLt, hab, hba, if_false] at h1 h2
              rw [hchar, ih h1 h2]

theorem jsLt_both_false_eq {a b : String} (h1 : jsLt a b = false)
    (h2 : jsLt b a = false) : a = b := by
  apply String.ext
  exact charListLt_eq_of_not_lt h1 h2

/-- Keys of different total length differ. -/
theorem string_ne_of_data_length_ne {a b : String}
    (h : a.data.length ≠ b.data.length) : a ≠ b := by
  intro hab
  exact h (by rw [hab])

theorem data_length_append (a b : String) :
    (a ++ b).data.length = a.data.length + b.data.length := by
  rw [String.data_append, List.length_append]

/-- A session-prefixed key is never the bare key. -/
theorem sessionPrefixed_ne_bare (s k : String) : s ++ ":" ++ k ≠ k := by
  apply string_ne_of_data_length_ne
  rw [data_length_append, data_length_append]
  have : (":" : String).data.length = 1 := rfl
  omega

/-- Two session prefixes produce equal keys only for equal sessions. -/
theorem sessionPrefixed_inj {s t k : String}
    (h : s ++ ":" ++ k = t ++ ":" ++ k) : s = t := by
  have hd : (s.data ++ (":" : String).data) ++ k.data =
      (t.data ++ (":" : String).data) ++ k.data := by
    have := congrArg String.data h
    simpa [String.data_append] using this
  have hd' := List.append_cancel_right hd
  have hd'' := List.append_cancel_right hd'
  exact String.ext hd''

/-! Truthiness and discovery-scan lemmas. -/

theorem truthy_some_of_ne {s : String} (h : s ≠ "") :
    truthy (some s) = true := by
  simp [truthy, h]

theorem jsOrString_some_of_ne {s : String} (d : String) (h : s ≠ "") :
    jsOrString (some s) d = s := by
  simp [jsOrString, h]

theorem isFirstDiscovery_eq_true_iff (r : String) (S : Store) :
    isFirstDiscovery r S = true ↔
      ∀ kv ∈ S, ¬ jsToLower kv.2.result = jsToLower r := by
  unfold isFirstDiscovery
  rw [Bool.not_eq_true', List.any_eq_false]
  constructor
  · intro h kv hm
    have := h kv hm
    simpa using this
  · intro h kv hm
    simpa using h kv hm

theorem isFirstDiscovery_false_of_mem {r : String} {S : Store}
    {kv : String × Combination} (hm : kv ∈ S)
    (hr : jsToLower kv.2.result = jsToLower r) :
    isFirstDiscovery r S = false := by
  unfold isFirstDiscovery
  rw [Bool.not_eq_false', List.any_eq_true]
  exact ⟨kv, hm, by simp [hr]⟩

/-! Reduction lemmas for `addCombinationServer`. -/

theorem addCombinationServer_existing (saveOk : Bool) (now : Nat)
    (a b r e : String) (bodyIsNew : Option Bool) (S : Store)
    (c : Combination)
    (ha : a ≠ "") (hb : b ≠ "") (hr : r ≠ "") (he : e ≠ "")
    (hex : objGet S (getCombinationKey a b) = some c) :
    addCombinationServer saveOk now ⟨some a, some b, some r, some e,
        bodyIsNew⟩ S =
      { store := S
        response := .ok c.result c.emoji false none
        savedToDisk := false
        events := [] } := by
  simp only [addCombinationServer, truthy_some_of_ne ha,
    truthy_some_of_ne hb, truthy_some_of_ne hr, truthy_some_of_ne he,
    jsOrString_some_of_ne _ ha, jsOrString_some_of_ne _ hb,
    jsOrString_some_of_ne _ hr, jsOrString_some_of_ne _ he,
    Bool.and_self, if_true, hex]

theorem addCombinationServer_insert (saveOk : Bool) (now : Nat)
    (a b r e : String) (bodyIsNew : Option Bool) (S : Store)
    (ha : a ≠ "") (hb : b ≠ "") (hr : r ≠ "") (he : e ≠ "")
    (habs : objGet S (getCombinationKey a b) = none) :
    addCombinationServer saveOk now ⟨some a, some b, some r, some e,
        bodyIsNew⟩ S =
      if saveOk then
        { store := objSet S (getCombinationKey a b)
            ⟨r, e, none, isFirstDiscovery r S, now⟩
          response := .ok r e (isFirstDiscovery r S) none
          savedToDisk := true
          events :=
            [Event.combinationAdded (objSet S (getCombinationKey a b)
              ⟨r, e, none, isFirstDiscovery r S, now⟩).length] ++
              (if isFirstDiscovery r S then
                [Event.firstDiscovery (getCombinationKey a b) r e none]
              else []) }
      else
        { store := S
          response := .serverError "Internal server error"
          savedToDisk := false
          events := [] } := by
  simp only [addCombinationServer, truthy_some_of_ne ha,
    truthy_some_of_ne hb, truthy_some_of_ne hr, truthy_some_of_ne he,
    jsOrString_some_of_ne _ ha, jsOrString_some_of_ne _ hb,
    jsOrString_some_of_ne _ hr, jsOrString_some_of_ne _ he,
    Bool.and_self, if_true, habs]

theorem addCombinationServer_invalid (saveOk : Bool) (now : Nat)
    (req : AddRequest) (S : Store)
    (h : (truthy req.first && truthy req.second && truthy req.result &&
      truthy req.emoji) = false) :
    addCombinationServer saveOk now req S =
      { store := S
        response := .badRequest "Missing required fields"
        savedToDisk := false
        events := [] } := by
  simp only [addCombinationServer, h, Bool.false_eq_true, if_false]

/-! Reduction lemmas for `addCombinationP2` and the `3.js` manual add. -/

theorem addCombinationP2_existing (saveOk : Bool) (now : Nat)
    (a b r e : String) (bodyIsNew : Option Bool) (sidOpt : Option String)
    (S : Store) (c : Combination)
    (ha : a ≠ "") (hb : b ≠ "") (hr : r ≠ "") (he : e ≠ "")
    (hex : combinationExistsInSession a b (resolveSessionId sidOpt) S =
      some c) :
    addCombinationP2 saveOk now ⟨some a, some b, some r, some e,
        bodyIsNew⟩ sidOpt S =
      { store := S
        response := .ok c.result c.emoji false
          (some (jsOrString c.sessionId (resolveSessionId sidOpt)))
        savedToDisk := false
        events := [] } := by
  simp only [addCombinationP2, truthy_some_of_ne ha,
    truthy_some_of_ne hb, truthy_some_of_ne hr, truthy_some_of_ne he,
    jsOrString_some_of_ne _ ha, jsOrString_some_of_ne _ hb,
    jsOrString_some_of_ne _ hr, jsOrString_some_of_ne _ he,
    Bool.and_self, if_true, hex]

theorem addCombinationP2_insert (saveOk : Bool) (now : Nat)
    (a b r e : String) (bodyIsNew : Option Bool) (sidOpt : Option String)
    (S : Store)
    (ha : a ≠ "") (hb : b ≠ "") (hr : r ≠ "") (he : e ≠ "")
    (habs : combinationExistsInSession a b (resolveSessionId sidOpt) S =
      none) :
    addCombinationP2 saveOk now ⟨some a, some b, some r, some e,
        bodyIsNew⟩ sidOpt S =
      if saveOk then
        { store := objSet S
            (storageKey (resolveSessionId sidOpt) (getCombinationKey a b))
            ⟨r, e, some (resolveSessionId sidOpt),
              isFirstDiscovery r S, now⟩
          response := .ok r e (isFirstDiscovery r S)
            (some (resolveSessionId sidOpt))
          savedToDisk := true
          events :=
            [Event.combinationAdded (objSet S
              (storageKey (resolveSessionId sidOpt)
                (getCombinationKey a b))
              ⟨r, e, some (resolveSessionId sidOpt),
                isFirstDiscovery r S, now⟩).length] ++
              (if isFirstDiscovery r S then
                [Event.firstDiscovery (getCombinationKey a b) r e
                  (some (resolveSessionId sidOpt))]
              else []) }
      else
        { store := S
          response := .serverError "Internal server error"
          savedToDisk := false
          events := [] } := by
  simp only [addCombinationP2, truthy_some_of_ne ha,
    truthy_some_of_ne hb, truthy_some_of_ne hr, truthy_some_of_ne he,
    jsOrString_some_of_ne _ ha, jsOrString_some_of_ne _ hb,
    jsOrString_some_of_ne _ hr, jsOrString_some_of_ne _ he,
    Bool.and_self, if_true, habs]

theorem addCombinationP2_invalid (saveOk : Bool) (now : Nat)
    (req : AddRequest) (sidOpt : Option String) (S : Store)
    (h : (truthy req.first && truthy req.second && truthy req.result &&
      truthy req.emoji) = false) :
    addCombinationP2 saveOk now req sidOpt S =
      { store := S
        response := .badRequest "Missing required fields"
        savedToDisk := false
        events := [] } := by
  simp only [addCombinationP2, h, Bool.false_eq_true, if_false]

theorem addCombinationManual_valid (saveOk : Bool) (now : Nat)
    (a b r e : String) (bodyIsNew : Option Bool)
    (S : List (String × Combo3))
    (ha : a ≠ "") (hb : b ≠ "") (hr : r ≠ "") (he : e ≠ "") :
    addCombinationManual saveOk now (some a) (some b) (some r) (some e)
        bodyIsNew S =
      { store := objSet S (getCombinationKey a b)
          ⟨r, e, jsOrBool bodyIsNew false, now, false, false⟩
        response := .ok (getCombinationKey a b)
          ⟨r, e, jsOrBool bodyIsNew false, now, false, false⟩
        events :=
          (if saveOk then ["combinations_updated"] else []) ++
            ["combination_added"] } := by
  simp only [addCombinationManual, truthy_some_of_ne ha,
    truthy_some_of_ne hb, truthy_some_of_ne hr, truthy_some_of_ne he,
    jsOrString_some_of_ne _ ha, jsOrString_some_of_ne _ hb,
    jsOrString_some_of_ne _ hr, jsOrString_some_of_ne _ he,
    Bool.and_self, if_true]

/-- Responses of the session-aware add never depend on the clock: only the
stored record embeds `discoveredAt`. -/
theorem addCombinationP2_response_time_free (saveOk : Bool)
    (now now' : Nat) (req : AddRequest) (sidOpt : Option String)
    (S : Store) :
    (addCombinationP2 saveOk now req sidOpt S).response =
      (addCombinationP2 saveOk now' req sidOpt S).response := by
  unfold addCombinationP2
  dsimp only
  split
  · split
    · rfl
    · split <;> rfl
  · rfl

/-! ## Claim theorems -/

/-- C3: the pair key is symmetric: for all item names `a` and `b`,
`getCombinationKey a b = getCombinationKey b a`.  The key is the two
names sorted by the embedded JS string order and joined with the fixed
separator `+`; as a Lean function it is deterministic and effect-free by
construction. -/
theorem claim3_key_symmetric (a b : String) :
    getCombinationKey a b = getCombinationKey b a := by
  unfold getCombinationKey
  by_cases h1 : jsLt b a = true
  · have h2 : jsLt a b = false := charListLt_asymm h1
    rw [if_pos h1, if_neg (by rw [h2]; exact Bool.false_ne_true)]
  · have h1' : jsLt b a = false := by
      cases hb : jsLt b a with
      | false => rfl
      | true => exact absurd hb h1
    rw [if_neg h1]
    by_cases h2 : jsLt a b = true
    · rw [if_pos h2]
    · have h2' : jsLt a b = false := by
        cases hb : jsLt a b with
        | false => rfl
        | true => exact absurd hb h2
      rw [if_neg h2, jsLt_both_false_eq h2' h1']

/-- C9: the pair-key function is not injective on unordered pairs once an
item name may contain the separator `+`: the distinct unordered pairs
`("a", "b+c")` and `("a+b", "c")` both map to the key `"a+b+c"`, so the
two different input pairs share one stored record slot. -/
theorem claim9_key_aliasing :
    getCombinationKey "a" "b+c" = "a+b+c" ∧
    getCombinationKey "a+b" "c" = "a+b+c" ∧
    ¬ ((("a" : String) = "a+b" ∧ ("b+c" : String) = "c") ∨
       (("a" : String) = "c" ∧ ("b+c" : String) = "a+b")) := by
  refine ⟨by decide, by decide, by decide⟩

/-- C2: the discovery tracker is a case-insensitive linear scan —
`isFirstDiscovery r S` is `true` iff no record of `S` (of any session)
has a result case-insensitively equal to `r`; and on any store in which
no record produces `r` (for instance after every such record has been
deleted) a fresh insert producing `r` is stored with
`wasFirstDiscovery = true` and reported as a first discovery again. -/
theorem claim2_discovery_tracker (r : String) (S : Store)
    (a b e : String) (bodyIsNew : Option Bool) (now : Nat)
    (ha : a ≠ "") (hb : b ≠ "") (hr : r ≠ "") (he : e ≠ "")
    (habs : objGet S (getCombinationKey a b) = none)
    (hgone : ∀ kv ∈ S, jsToLower kv.2.result ≠ jsToLower r) :
    (isFirstDiscovery r S = true ↔
      ∀ kv ∈ S, ¬ jsToLower kv.2.result = jsToLower r) ∧
    objGet (addCombinationServer true now
        ⟨some a, some b, some r, some e, bodyIsNew⟩ S).store
        (getCombinationKey a b) =
      some ⟨r, e, none, true, now⟩ ∧
    (addCombinationServer true now
        ⟨some a, some b, some r, some e, bodyIsNew⟩ S).response =
      .ok r e true none := by
  have hfirst : isFirstDiscovery r S = true :=
    (isFirstDiscovery_eq_true_iff r S).mpr hgone
  have hred := addCombinationServer_insert true now a b r e bodyIsNew S
    ha hb hr he habs
  rw [if_pos rfl] at hred
  refine ⟨isFirstDiscovery_eq_true_iff r S, ?_, ?_⟩
  · rw [hred, hfirst]
    exact objGet_objSet_self S (getCombinationKey a b) _
  · rw [hred, hfirst]

/-- C7: validation precondition of add — when any of the four required
body fields is missing or empty, both file-backed add routes answer the
validation error and change nothing: the store is untouched, nothing is
saved, and no event is broadcast. -/
theorem claim7_validation_rejects_unchanged (saveOk : Bool) (now : Nat)
    (req : AddRequest) (sidOpt : Option String) (S : Store)
    (hmiss : req.first = none ∨ req.first = some "" ∨
      req.second = none ∨ req.second = some "" ∨
      req.result = none ∨ req.result = some "" ∨
      req.emoji = none ∨ req.emoji = some "") :
    addCombinationServer saveOk now req S =
      { store := S
        response := .badRequest "Missing required fields"
        savedToDisk := false
        events := [] } ∧
    addCombinationP2 saveOk now req sidOpt S =
      { store := S
        response := .badRequest "Missing required fields"
        savedToDisk := false
        events := [] } := by
  have hcond : (truthy req.first && truthy req.second &&
      truthy req.result && truthy req.emoji) = false := by
    rcases hmiss with h | h | h | h | h | h | h | h <;>
      rw [h] <;> simp [truthy]
  exact ⟨addCombinationServer_invalid saveOk now req S hcond,
    addCombinationP2_invalid saveOk now req sidOpt S hcond⟩

/-- Witness for C7 at a concrete input: a request with an empty `emoji`
is rejected and the one-record store stays exactly as it was. -/
theorem claim7_witness :
    addCombinationServer true 5
        ⟨some "Fire", some "Water", some "Steam", some "", none⟩
        [("Earth+Wind", ⟨"Dust", "D", none, true, 0⟩)] =
      { store := [("Earth+Wind", ⟨"Dust", "D", none, true, 0⟩)]
        response := .badRequest "Missing required fields"
        savedToDisk := false
        events := [] } ∧
    addCombinationP2 true 5
        ⟨some "Fire", some "Water", some "Steam", some "", none⟩
        (some "s1") [("Earth+Wind", ⟨"Dust", "D", none, true, 0⟩)] =
      { store := [("Earth+Wind", ⟨"Dust", "D", none, true, 0⟩)]
        response := .badRequest "Missing required fields"
        savedToDisk := false
        events := [] } :=
  claim7_validation_rejects_unchanged true 5
    ⟨some "Fire", some "Water", some "Steam", some "", none⟩
    (some "s1") [("Earth+Wind", ⟨"Dust", "D", none, true, 0⟩)]
    (by decide)

/-- C10: the caller cannot forge a first discovery — the `isNew` body
field is destructured but never read by either add route: two calls
differing only in that field produce identical outcomes (store, response,
save flag and events) at the same timestamp, and the computed response —
including the transient first-discovery flag — does not depend on the
timestamp either. -/
theorem claim10_isNew_body_field_ignored (saveOk : Bool)
    (now now' : Nat) (f s r e : Option String) (b1 b2 : Option Bool)
    (sidOpt : Option String) (S : Store) :
    addCombinationP2 saveOk now ⟨f, s, r, e, b1⟩ sidOpt S =
      addCombinationP2 saveOk now ⟨f, s, r, e, b2⟩ sidOpt S ∧
    addCombinationServer saveOk now ⟨f, s, r, e, b1⟩ S =
      addCombinationServer saveOk now ⟨f, s, r, e, b2⟩ S ∧
    (addCombinationP2 saveOk now ⟨f, s, r, e, b1⟩ sidOpt S).response =
      (addCombinationP2 saveOk now' ⟨f, s, r, e, b2⟩ sidOpt S).response := by
  refine ⟨rfl, rfl, ?_⟩
  exact addCombinationP2_response_time_free saveOk now now'
    ⟨f, s, r, e, b2⟩ sidOpt S

/-- Witness for C2 at a concrete input: on a store without any record
producing "Dragon", the insert stores `wasFirstDiscovery = true`. -/
theorem claim2_witness :
    objGet (addCombinationServer true 3
        ⟨some "Fire", some "Water", some "Dragon", some "E", none⟩
        [("Earth+Wind", ⟨"Dust", "D", none, true, 0⟩)]).store
        (getCombinationKey "Fire" "Water") =
      some ⟨"Dragon", "E", none, true, 3⟩ :=
  (claim2_discovery_tracker "Dragon"
    [("Earth+Wind", ⟨"Dust", "D", none, true, 0⟩)]
    "Fire" "Water" "E" none 3 (by decide) (by decide) (by decide)
    (by decide) (by decide) (by decide)).2.1

/-- C1 counterexample: the manual-add endpoint of `src/3.js`
(`POST /api/combinations`) is not write-once — adding over the existing
key `"Earth+Fire"` replaces the stored record in place and the response
carries the new record, not the pre-existing one. -/
theorem claim1_counterexample_manual_add_overwrites :
    (addCombinationManual true 7 (some "Fire") (some "Earth")
        (some "Mud") (some "M") none
        [("Earth+Fire", ⟨"Lava", "L", false, 0, false, true⟩)]).store =
      [("Earth+Fire", ⟨"Mud", "M", false, 7, false, false⟩)] ∧
    (addCombinationManual true 7 (some "Fire") (some "Earth")
        (some "Mud") (some "M") none
        [("Earth+Fire", ⟨"Lava", "L", false, 0, false, true⟩)]).store ≠
      [("Earth+Fire", ⟨"Lava", "L", false, 0, false, true⟩)] ∧
    (addCombinationManual true 7 (some "Fire") (some "Earth")
        (some "Mud") (some "M") none
        [("Earth+Fire", ⟨"Lava", "L", false, 0, false, true⟩)]).response =
      .ok "Earth+Fire" ⟨"Mud", "M", false, 7, false, false⟩ :=
  ⟨by decide, by decide, by decide⟩

/-- C1 amended: the claim holds for the `/api/combination` add of
`server.js` and of the session-aware variant — an add over an existing
key (in the requested session) leaves the store unchanged, saves and
broadcasts nothing, and returns the existing record; and after a
successful insert a second identical call changes nothing, so the stored
`discoveredAt` and `wasFirstDiscovery` stay as created.  The manual-add
endpoint of `3.js` is excluded: it overwrites an existing key. -/
theorem claim1_write_once_amended (saveOk saveOk2 : Bool)
    (now now2 : Nat) (a1 b1 a2 b2 r e : String)
    (bodyIsNew : Option Bool) (sidOpt : Option String) (S : Store)
    (c cP2 : Combination)
    (ha1 : a1 ≠ "") (hb1 : b1 ≠ "") (ha2 : a2 ≠ "") (hb2 : b2 ≠ "")
    (hr : r ≠ "") (he : e ≠ "")
    (hex : objGet S (getCombinationKey a1 b1) = some c)
    (hexP2 : combinationExistsInSession a1 b1 (resolveSessionId sidOpt)
      S = some cP2)
    (habs : objGet S (getCombinationKey a2 b2) = none) :
    addCombinationServer saveOk now
        ⟨some a1, some b1, some r, some e, bodyIsNew⟩ S =
      { store := S
        response := .ok c.result c.emoji false none
        savedToDisk := false
        events := [] } ∧
    addCombinationP2 saveOk now
        ⟨some a1, some b1, some r, some e, bodyIsNew⟩ sidOpt S =
      { store := S
        response := .ok cP2.result cP2.emoji false
          (some (jsOrString cP2.sessionId (resolveSessionId sidOpt)))
        savedToDisk := false
        events := [] } ∧
    objGet (addCombinationServer true now
        ⟨some a2, some b2, some r, some e, bodyIsNew⟩ S).store
        (getCombinationKey a2 b2) =
      some ⟨r, e, none, isFirstDiscovery r S, now⟩ ∧
    addCombinationServer saveOk2 now2
        ⟨some a2, some b2, some r, some e, bodyIsNew⟩
        (addCombinationServer true now
          ⟨some a2, some b2, some r, some e, bodyIsNew⟩ S).store =
      { store := (addCombinationServer true now
          ⟨some a2, some b2, some r, some e, bodyIsNew⟩ S).store
        response := .ok r e false none
        savedToDisk := false
        events := [] } := by
  have hred := addCombinationServer_insert true now a2 b2 r e bodyIsNew S
    ha2 hb2 hr he habs
  rw [if_pos rfl] at hred
  have hstored : objGet (addCombinationServer true now
      ⟨some a2, some b2, some r, some e, bodyIsNew⟩ S).store
      (getCombinationKey a2 b2) =
      some ⟨r, e, none, isFirstDiscovery r S, now⟩ := by
    rw [hred]
    exact objGet_objSet_self S (getCombinationKey a2 b2) _
  refine ⟨addCombinationServer_existing saveOk now a1 b1 r e bodyIsNew S c
      ha1 hb1 hr he hex,
    addCombinationP2_existing saveOk now a1 b1 r e bodyIsNew sidOpt S cP2
      ha1 hb1 hr he hexP2,
    hstored, ?_⟩
  exact addCombinationServer_existing saveOk2 now2 a2 b2 r e bodyIsNew _
    ⟨r, e, none, isFirstDiscovery r S, now⟩ ha2 hb2 hr he hstored

/-- Witness for C1 (amended) at concrete inputs: the second identical
add after a successful insert of `Earth+Wind = Dust` is a pure no-op. -/
theorem claim1_witness :
    addCombinationServer false 9
        ⟨some "Earth", some "Wind", some "Dust", some "D", none⟩
        (addCombinationServer true 4
          ⟨some "Earth", some "Wind", some "Dust", some "D", none⟩
          [("Fire+Water", ⟨"Steam", "S", none, true, 0⟩)]).store =
      { store := (addCombinationServer true 4
          ⟨some "Earth", some "Wind", some "Dust", some "D", none⟩
          [("Fire+Water", ⟨"Steam", "S", none, true, 0⟩)]).store
        response := .ok "Dust" "D" false none
        savedToDisk := false
        events := [] } :=
  (claim1_write_once_amended false false 4 9 "Fire" "Water" "Earth"
    "Wind" "Dust" "D" none none
    [("Fire+Water", ⟨"Steam", "S", none, true, 0⟩)]
    ⟨"Steam", "S", none, true, 0⟩ ⟨"Steam", "S", none, true, 0⟩
    (by decide) (by decide) (by decide) (by decide) (by decide)
    (by decide) (by decide) (by decide) (by decide)).2.2.2

/-- C5 counterexample: in `server.js` and in the session-aware variant a
failed durable save is not absorbed — the add responds with the 500
server error, so the operation does report overall failure to its
caller, and the durable store keeps no trace of the insertion. -/
theorem claim5_counterexample_save_failure_fails_request :
    addCombinationServer false 3
        ⟨some "Fire", some "Water", some "Steam", some "S", none⟩ [] =
      { store := []
        response := .serverError "Internal server error"
        savedToDisk := false
        events := [] } ∧
    addCombinationP2 false 3
        ⟨some "Fire", some "Water", some "Steam", some "S", none⟩
        (some "s1") [] =
      { store := []
        response := .serverError "Internal server error"
        savedToDisk := false
        events := [] } :=
  ⟨by decide, by decide⟩

/-- C5 amended: only the `3.js` variant absorbs persistence failure at
the component boundary — its manual add keeps the in-memory insertion,
still broadcasts `combination_added`, and reports success to the caller
even when the file write fails; in `server.js`/`part_002` a save failure
propagates and the add reports the 500 error instead. -/
theorem claim5_persistence_amended (now : Nat) (a b r e : String)
    (bodyIsNew : Option Bool) (S : List (String × Combo3))
    (ha : a ≠ "") (hb : b ≠ "") (hr : r ≠ "") (he : e ≠ "") :
    (addCombinationManual false now (some a) (some b) (some r) (some e)
        bodyIsNew S).response =
      .ok (getCombinationKey a b)
        ⟨r, e, jsOrBool bodyIsNew false, now, false, false⟩ ∧
    objGet (addCombinationManual false now (some a) (some b) (some r)
        (some e) bodyIsNew S).store (getCombinationKey a b) =
      some ⟨r, e, jsOrBool bodyIsNew false, now, false, false⟩ ∧
    (addCombinationManual false now (some a) (some b) (some r) (some e)
        bodyIsNew S).events = ["combination_added"] := by
  have hred := addCombinationManual_valid false now a b r e bodyIsNew S
    ha hb hr he
  refine ⟨by rw [hred], ?_, by rw [hred]; rfl⟩
  rw [hred]
  exact objGet_objSet_self S (getCombinationKey a b) _

/-- Witness for C5 (amended) at a concrete input: the `3.js` manual add
with a failing file write still stores and reports the record. -/
theorem claim5_witness :
    objGet (addCombinationManual false 2 (some "Fire") (some "Water")
        (some "Steam") (some "S") none []).store
        (getCombinationKey "Fire" "Water") =
      some ⟨"Steam", "S", false, 2, false, false⟩ :=
  (claim5_persistence_amended 2 "Fire" "Water" "Steam" "S" none []
    (by decide) (by decide) (by decide) (by decide)).2.1

/-- C6 counterexample: `broadcastUpdate` in `3.js` leaves the failing
subscriber (id 0) in the registry — it is not removed, only skipped —
and the `server.js` save-time fan-out stops at the first failing
subscriber and surfaces the error, never reaching subscriber 1. -/
theorem claim6_counterexample :
    (broadcastUpdate3 [⟨0, true⟩, ⟨1, false⟩]).2 =
      [⟨0, true⟩, ⟨1, false⟩] ∧
    (broadcastUpdate3 [⟨0, true⟩, ⟨1, false⟩]).1 = [1] ∧
    broadcastServerWrites [⟨0, true⟩, ⟨1, false⟩] [] =
      .error "client write failed" :=
  ⟨by decide, by decide, rfl⟩

theorem broadcastUpdate3_go_eq (cs : List Client) (acc : List Nat) :
    broadcastUpdate3.go cs acc =
      acc ++ (cs.filter (fun x => !x.failing)).map (fun x => x.id) := by
  induction cs generalizing acc with
  | nil => simp [broadcastUpdate3.go]
  | cons c rest ih =>
      by_cases hc : c.failing = true
      · simp only [broadcastUpdate3.go, hc, if_true, List.filter_cons,
          Bool.not_true, Bool.false_eq_true, if_false]
        exact ih acc
      · have hc' : c.failing = false := by
          cases hb : c.failing with
          | false => rfl
          | true => exact absurd hb hc
        simp only [broadcastUpdate3.go, hc', Bool.false_eq_true, if_false,
          List.filter_cons, Bool.not_false, if_true, List.map_cons]
        rw [ih (acc ++ [c.id]), List.append_assoc, List.singleton_append]

theorem broadcastServerWrites_aborts {c : Client} (post : List Client)
    (hc : c.failing = true) :
    ∀ (pre : List Client) (acc : List Nat),
      (∀ x ∈ pre, x.failing = false) →
      broadcastServerWrites (pre ++ c :: post) acc =
        .error "client write failed" := by
  intro pre
  induction pre with
  | nil =>
      intro acc _
      simp only [List.nil_append, broadcastServerWrites, hc, if_true]
  | cons p rest ih =>
      intro acc hpre
      have hp : p.failing = false := hpre p (List.mem_cons_self p rest)
      simp only [List.cons_append, broadcastServerWrites, hp,
        Bool.false_eq_true, if_false]
      exact ih (acc ++ [p.id]) (fun x hx => hpre x (List.mem_cons_of_mem p hx))

/-- C6 amended: in the `3.js` fan-out a delivery failure to one
subscriber neither blocks nor aborts delivery to the others and no error
reaches the caller — every non-failing subscriber receives the event, in
registration order — but the failing subscriber is not removed from the
registry (it stays registered; removal happens only on disconnect).  In
the `server.js` save-time fan-out there is no per-subscriber isolation:
the first failing subscriber aborts the remaining deliveries and the
error escapes to the mutating caller. -/
theorem claim6_fanout_amended (clients pre post : List Client)
    (c : Client) (hpre : ∀ x ∈ pre, x.failing = false)
    (hc : c.failing = true) :
    (broadcastUpdate3 clients).1 =
      (clients.filter (fun x => !x.failing)).map (fun x => x.id) ∧
    (broadcastUpdate3 clients).2 = clients ∧
    broadcastServerWrites (pre ++ c :: post) [] =
      .error "client write failed" := by
  refine ⟨?_, rfl, broadcastServerWrites_aborts post hc pre [] hpre⟩
  show broadcastUpdate3.go clients [] = _
  rw [broadcastUpdate3_go_eq clients [], List.nil_append]

/-- Witness for C6 (amended) at concrete inputs. -/
theorem claim6_witness :
    (broadcastUpdate3 [⟨0, true⟩, ⟨2, false⟩]).1 =
      (([⟨0, true⟩, ⟨2, false⟩] : List Client).filter
        (fun x => !x.failing)).map (fun x => x.id) ∧
    (broadcastUpdate3 [⟨0, true⟩, ⟨2, false⟩]).2 =
      [⟨0, true⟩, ⟨2, false⟩] ∧
    broadcastServerWrites ([⟨5, false⟩] ++ ⟨6, true⟩ :: [⟨7, false⟩]) [] =
      .error "client write failed" :=
  claim6_fanout_amended [⟨0, true⟩, ⟨2, false⟩] [⟨5, false⟩] [⟨7, false⟩]
    ⟨6, true⟩ (by decide) (by decide)

/-! Storage-key separation lemmas for the session-aware variant. -/

theorem storageKey_ne_bare {s : String} (k : String)
    (hs : s ≠ "default") : storageKey s k ≠ k := by
  rw [storageKey, if_neg hs]
  exact sessionPrefixed_ne_bare s k

theorem storageKey_inj_ne {s t : String} (k : String) (hne : s ≠ t) :
    storageKey s k ≠ storageKey t k := by
  unfold storageKey
  by_cases hs : s = "default" <;> by_cases ht : t = "default"
  · exact absurd (hs.trans ht.symm) hne
  · rw [if_pos hs, if_neg ht]
    exact (sessionPrefixed_ne_bare t k).symm
  · rw [if_neg hs, if_pos ht]
    exact sessionPrefixed_ne_bare s k
  · rw [if_neg hs, if_neg ht]
    intro h
    exact hne (sessionPrefixed_inj h)

theorem combinationExistsInSession_none_sessionKey {a b s : String}
    {S : Store} (h : combinationExistsInSession a b s S = none) :
    objGet S (storageKey s (getCombinationKey a b)) = none := by
  unfold combinationExistsInSession at h
  dsimp only at h
  cases hv : objGet S (storageKey s (getCombinationKey a b)) with
  | none => rfl
  | some c =>
      rw [hv] at h
      simp at h

theorem combinationExistsInSession_none_bare_default {a b : String}
    {S : Store}
    (h : combinationExistsInSession a b "default" S = none) :
    objGet S (getCombinationKey a b) = none := by
  have hk := combinationExistsInSession_none_sessionKey h
  rwa [storageKey, if_pos rfl] at hk

/-- Inserting a record for session `s1` never changes what a lookup under
a different session `s2` observes: the session-qualified key of `s2` is
untouched, and the bare-key fallback rejects the new record because its
own `sessionId` is `s1`. -/
theorem lookup_unchanged_by_other_session_insert (a b s1 s2 : String)
    (S : Store) (v : Combination) (hne : s1 ≠ s2)
    (hv : v.sessionId = some s1)
    (hbare : s1 = "default" → objGet S (getCombinationKey a b) = none) :
    combinationExistsInSession a b s2
        (objSet S (storageKey s1 (getCombinationKey a b)) v) =
      combinationExistsInSession a b s2 S := by
  unfold combinationExistsInSession
  dsimp only
  by_cases hd1 : s1 = "default"
  · subst hd1
    have hb := hbare rfl
    have hd2 : s2 ≠ "default" := hne.symm
    have e1 : storageKey "default" (getCombinationKey a b) =
        getCombinationKey a b := by rw [storageKey, if_pos rfl]
    have e2 : storageKey s2 (getCombinationKey a b) =
        s2 ++ ":" ++ getCombinationKey a b := by
      rw [storageKey, if_neg hd2]
    rw [e1, e2]
    have e3 : objGet (objSet S (getCombinationKey a b) v)
        (s2 ++ ":" ++ getCombinationKey a b) =
        objGet S (s2 ++ ":" ++ getCombinationKey a b) :=
      objGet_objSet_ne S (getCombinationKey a b) _ v
        (sessionPrefixed_ne_bare s2 (getCombinationKey a b))
    rw [e3]
    cases hv2 : objGet S (s2 ++ ":" ++ getCombinationKey a b) with
    | some c => rfl
    | none =>
        rw [objGet_objSet_self, hb]
        have hcond : ¬ v.sessionId = some s2 := by
          rw [hv]
          intro h
          exact hd2 (Option.some.inj h).symm
        dsimp only
        rw [if_neg hcond]
  · have e1 : storageKey s1 (getCombinationKey a b) =
        s1 ++ ":" ++ getCombinationKey a b := by rw [storageKey, if_neg hd1]
    rw [e1]
    by_cases hd2 : s2 = "default"
    · subst hd2
      have e2 : storageKey "default" (getCombinationKey a b) =
          getCombinationKey a b := by rw [storageKey, if_pos rfl]
      rw [e2]
      have e3 : objGet (objSet S (s1 ++ ":" ++ getCombinationKey a b) v)
          (getCombinationKey a b) = objGet S (getCombinationKey a b) :=
        objGet_objSet_ne S _ _ v
          (sessionPrefixed_ne_bare s1 (getCombinationKey a b)).symm
      rw [e3]
    · have e2 : storageKey s2 (getCombinationKey a b) =
          s2 ++ ":" ++ getCombinationKey a b := by
        rw [storageKey, if_neg hd2]
      rw [e2]
      have e3 : objGet (objSet S (s1 ++ ":" ++ getCombinationKey a b) v)
          (s2 ++ ":" ++ getCombinationKey a b) =
          objGet S (s2 ++ ":" ++ getCombinationKey a b) :=
        objGet_objSet_ne S _ _ v
          (fun h => hne (sessionPrefixed_inj h).symm)
      have e4 : objGet (objSet S (s1 ++ ":" ++ getCombinationKey a b) v)
          (getCombinationKey a b) = objGet S (getCombinationKey a b) :=
        objGet_objSet_ne S _ _ v
          (sessionPrefixed_ne_bare s1 (getCombinationKey a b)).symm
      rw [e3, e4]

/-- C4: session isolation of existence, not of discovery.  After a
successful `record(a, b, r, e, s1)` the lookup of `(a, b)` under any
other session `s2` is exactly what it was before the insert — the
bare-key fallback only accepts a record whose own `sessionId` equals the
requested session — while the global first-discovery status of `r` is
shared: a later insert under any session producing a case variant of `r`
is computed as not-first, stored with `wasFirstDiscovery = false` and
reported with the transient flag `false`. -/
theorem claim4_session_isolation (now now2 : Nat)
    (a b r e a2 b2 r2 e2 : String) (bodyIsNew bodyIsNew2 : Option Bool)
    (s1 s2 s3 : String) (S S' : Store)
    (ha : a ≠ "") (hb : b ≠ "") (hr : r ≠ "") (he : e ≠ "")
    (ha2 : a2 ≠ "") (hb2 : b2 ≠ "") (hr2 : r2 ≠ "") (he2 : e2 ≠ "")
    (hs1 : s1 ≠ "") (hs3 : s3 ≠ "") (hne : s1 ≠ s2)
    (habs : combinationExistsInSession a b s1 S = none)
    (hS' : S' = (addCombinationP2 true now
      ⟨some a, some b, some r, some e, bodyIsNew⟩ (some s1) S).store)
    (hcase : jsToLower r2 = jsToLower r)
    (habs2 : combinationExistsInSession a2 b2 s3 S' = none) :
    combinationExistsInSession a b s2 S' =
      combinationExistsInSession a b s2 S ∧
    isFirstDiscovery r2 S' = false ∧
    (addCombinationP2 true now2
        ⟨some a2, some b2, some r2, some e2, bodyIsNew2⟩ (some s3)
        S').response =
      .ok r2 e2 false (some s3) ∧
    objGet (addCombinationP2 true now2
        ⟨some a2, some b2, some r2, some e2, bodyIsNew2⟩ (some s3)
        S').store (storageKey s3 (getCombinationKey a2 b2)) =
      some ⟨r2, e2, some s3, false, now2⟩ := by
  have hres1 : resolveSessionId (some s1) = s1 :=
    jsOrString_some_of_ne _ hs1
  have hres3 : resolveSessionId (some s3) = s3 :=
    jsOrString_some_of_ne _ hs3
  have hredIns := addCombinationP2_insert true now a b r e bodyIsNew
    (some s1) S ha hb hr he (by rw [hres1]; exact habs)
  rw [if_pos rfl] at hredIns
  have hS'eq : S' = objSet S (storageKey s1 (getCombinationKey a b))
      ⟨r, e, some s1, isFirstDiscovery r S, now⟩ := by
    rw [hS', hredIns, hres1]
  have hmem : (storageKey s1 (getCombinationKey a b),
      (⟨r, e, some s1, isFirstDiscovery r S, now⟩ : Combination)) ∈ S' := by
    rw [hS'eq]
    exact mem_objSet_self S _ _
  have hfd : isFirstDiscovery r2 S' = false :=
    isFirstDiscovery_false_of_mem hmem hcase.symm
  have hredIns2 := addCombinationP2_insert true now2 a2 b2 r2 e2
    bodyIsNew2 (some s3) S' ha2 hb2 hr2 he2 (by rw [hres3]; exact habs2)
  rw [if_pos rfl] at hredIns2
  refine ⟨?_, hfd, ?_, ?_⟩
  · rw [hS'eq]
    exact lookup_unchanged_by_other_session_insert a b s1 s2 S _ hne rfl
      (fun hd => combinationExistsInSession_none_bare_default (hd ▸ habs))
  · rw [hredIns2, hres3, hfd]
  · rw [hredIns2, hres3, hfd]
    exact objGet_objSet_self S' _ _

/-- Witness for C4 at concrete inputs: after recording `Dragon` under
session `s1`, the `s2` lookup of the same pair still fails, and a later
insert of the case variant `dragon` under `s2` is stored with
`wasFirstDiscovery = false`. -/
theorem claim4_witness :
    combinationExistsInSession "Fire" "Water" "s2"
        [("s1:Fire+Water", ⟨"Dragon", "D", some "s1", true, 1⟩)] =
      combinationExistsInSession "Fire" "Water" "s2" [] ∧
    objGet (addCombinationP2 true 2
        ⟨some "Earth", some "Wind", some "dragon", some "E", none⟩
        (some "s2")
        [("s1:Fire+Water", ⟨"Dragon", "D", some "s1", true, 1⟩)]).store
        (storageKey "s2" (getCombinationKey "Earth" "Wind")) =
      some ⟨"dragon", "E", some "s2", false, 2⟩ :=
  ⟨(claim4_session_isolation 1 2 "Fire" "Water" "Dragon" "D" "Earth"
      "Wind" "dragon" "E" none none "s1" "s2" "s2" []
      [("s1:Fire+Water", ⟨"Dragon", "D", some "s1", true, 1⟩)]
      (by decide) (by decide) (by decide) (by decide) (by decide)
      (by decide) (by decide) (by decide) (by decide) (by decide)
      (by decide) (by decide) (by decide) (by decide) (by decide)).1,
    (claim4_session_isolation 1 2 "Fire" "Water" "Dragon" "D" "Earth"
      "Wind" "dragon" "E" none none "s1" "s2" "s2" []
      [("s1:Fire+Water", ⟨"Dragon", "D", some "s1", true, 1⟩)]
      (by decide) (by decide) (by decide) (by decide) (by decide)
      (by decide) (by decide) (by decide) (by decide) (by decide)
      (by decide) (by decide) (by decide) (by decide)
      (by decide)).2.2.2⟩

/-- The accumulating loop of the first-discoveries route appends one
entry per selected record — with its display key and projected value —
as long as the display keys of the selected records are all distinct and
fresh for the accumulator. -/
theorem firstDiscoveriesLoop_eq (sid : Option String) :
    ∀ (S acc : Store),
      (∀ kv ∈ S, fdPred sid kv = true →
        ∀ x ∈ acc, x.1 ≠ displayKey kv.1) →
      ((S.filter (fdPred sid)).map (fun kv => displayKey kv.1)).Nodup →
      firstDiscoveriesLoop sid S acc =
        acc ++ (S.filter (fdPred sid)).map
          (fun kv => (displayKey kv.1, firstDiscoveryView kv.2)) := by
  intro S
  induction S with
  | nil => intro acc _ _; simp [firstDiscoveriesLoop]
  | cons kv rest ih =>
      intro acc hdisj hnodup
      by_cases hp : fdPred sid kv = true
      · have hfilter : (kv :: rest).filter (fdPred sid) =
            kv :: rest.filter (fdPred sid) := List.filter_cons_of_pos hp
        rw [hfilter, List.map_cons] at hnodup
        rcases List.nodup_cons.mp hnodup with ⟨hnotmem, hnodup'⟩
        have hfresh : ∀ x ∈ acc, x.1 ≠ displayKey kv.1 :=
          hdisj kv (List.mem_cons_self kv rest) hp
        have hset : objSet acc (displayKey kv.1)
            (firstDiscoveryView kv.2) =
            acc ++ [(displayKey kv.1, firstDiscoveryView kv.2)] :=
          objSet_of_key_fresh acc _ _ hfresh
        have hdisj' : ∀ kv' ∈ rest, fdPred sid kv' = true →
            ∀ x ∈ acc ++ [(displayKey kv.1, firstDiscoveryView kv.2)],
              x.1 ≠ displayKey kv'.1 := by
          intro kv' hkv' hp' x hx
          rcases List.mem_append.mp hx with hx | hx
          · exact hdisj kv' (List.mem_cons_of_mem kv hkv') hp' x hx
          · have hxeq : x = (displayKey kv.1, firstDiscoveryView kv.2) :=
              by simpa using hx
            rw [hxeq]
            intro hcontra
            have hcontra' : displayKey kv.1 = displayKey kv'.1 := hcontra
            exact hnotmem (hcontra' ▸ List.mem_map_of_mem
              (fun kv => displayKey kv.1)
              (List.mem_filter.mpr ⟨hkv', hp'⟩))
        rw [firstDiscoveriesLoop, if_pos hp, hset,
          ih (acc ++ [(displayKey kv.1, firstDiscoveryView kv.2)])
            hdisj' hnodup',
          hfilter, List.map_cons, List.append_assoc,
          List.singleton_append]
      · have hp' : fdPred sid kv = false := by
          cases hb : fdPred sid kv with
          | false => rfl
          | true => exact absurd hb hp
        have hfilter : (kv :: rest).filter (fdPred sid) =
            rest.filter (fdPred sid) := List.filter_cons_of_neg (by
              rw [hp']; exact Bool.false_ne_true)
        rw [firstDiscoveriesLoop, if_neg (by rw [hp']; exact
          Bool.false_ne_true), hfilter]
        rw [hfilter] at hnodup
        exact ih acc
          (fun kv' hkv' hq => hdisj kv' (List.mem_cons_of_mem kv hkv') hq)
          hnodup

/-- C8 counterexample: `GET /api/combinations` of the session-aware
variant ignores a supplied `sessionId` — with `"s2"` requested it still
returns the full store although no record belongs to `"s2"` — and even
with `sessionId` omitted, `GET /api/first-discoveries` is not exactly
the `wasFirstDiscovery` subset of the listing: the session-prefixed key
`"s1:a+b"` and the bare key `"a+b"` collide on the display key, so only
one of the two flagged records survives. -/
theorem claim8_counterexample :
    listAllP2
        [("s1:a+b", ⟨"Dragon", "D", some "s1", true, 0⟩),
          ("a+b", ⟨"Steam", "S", some "default", true, 1⟩)]
        (some "s2") =
      [("s1:a+b", ⟨"Dragon", "D", some "s1", true, 0⟩),
        ("a+b", ⟨"Steam", "S", some "default", true, 1⟩)] ∧
    ([("s1:a+b", (⟨"Dragon", "D", some "s1", true, 0⟩ : Combination)),
        ("a+b", ⟨"Steam", "S", some "default", true, 1⟩)].filter
      (fun kv => kv.2.sessionId == some "s2")) = [] ∧
    (listFirstDiscoveriesP2
        [("s1:a+b", ⟨"Dragon", "D", some "s1", true, 0⟩),
          ("a+b", ⟨"Steam", "S", some "default", true, 1⟩)]
        none).length = 1 ∧
    ((listAllP2
        [("s1:a+b", ⟨"Dragon", "D", some "s1", true, 0⟩),
          ("a+b", ⟨"Steam", "S", some "default", true, 1⟩)]
        none).filter (fun kv => kv.2.wasFirstDiscovery)).length = 2 :=
  ⟨rfl, by decide, by decide, by decide⟩

/-- C8 amended: `GET /api/combinations` returns every record of the
store whatever `sessionId` is supplied (it reads no session parameter at
all), while `GET /api/first-discoveries` returns exactly the records of
that full listing with `wasFirstDiscovery = true` — filtered to the
requested session when one is supplied — with each surviving record
listed under its display key (session prefix stripped) and projected to
the route's output shape, provided those display keys do not collide. -/
theorem claim8_list_consistency_amended (S : Store) (sid : Option String)
    (hnodup : ((S.filter (fdPred (normalizeSessionId sid))).map
      (fun kv => displayKey kv.1)).Nodup) :
    listAllP2 S sid = S ∧
    listFirstDiscoveriesP2 S sid =
      ((listAllP2 S sid).filter (fdPred (normalizeSessionId sid))).map
        (fun kv => (displayKey kv.1, firstDiscoveryView kv.2)) := by
  refine ⟨rfl, ?_⟩
  unfold listFirstDiscoveriesP2 listAllP2
  rw [firstDiscoveriesLoop_eq (normalizeSessionId sid) S []
    (fun kv _ _ x hx => absurd hx (List.not_mem_nil x)) hnodup,
    List.nil_append]

/-- Witness for C8 (amended) at a concrete input with non-colliding
display keys and a supplied session. -/
theorem claim8_witness :
    listAllP2
        [("s1:a+b", ⟨"Dragon", "D", some "s1", true, 0⟩),
          ("c+d", ⟨"Steam", "S", some "default", true, 1⟩)]
        (some "s1") =
      [("s1:a+b", ⟨"Dragon", "D", some "s1", true, 0⟩),
        ("c+d", ⟨"Steam", "S", some "default", true, 1⟩)] ∧
    listFirstDiscoveriesP2
        [("s1:a+b", ⟨"Dragon", "D", some "s1", true, 0⟩),
          ("c+d", ⟨"Steam", "S", some "default", true, 1⟩)]
        (some "s1") =
      ((listAllP2
          [("s1:a+b", ⟨"Dragon", "D", some "s1", true, 0⟩),
            ("c+d", ⟨"Steam", "S", some "default", true, 1⟩)]
          (some "s1")).filter
        (fdPred (normalizeSessionId (some "s1")))).map
          (fun kv => (displayKey kv.1, firstDiscoveryView kv.2)) :=
  claim8_list_consistency_amended
    [("s1:a+b", ⟨"Dragon", "D", some "s1", true, 0⟩),
      ("c+d", ⟨"Steam", "S", some "default", true, 1⟩)]
    (some "s1") (by decide)

end Comb
